import Mathlib

/-!
Shallow embedding of `src/users.py` (FastAPI user-directory routes of the
orchestration controller): request models, the capability-probing database
dispatch, and the five route handlers (list, list-approvers, create, update,
delete), together with proofs about the claims of the specification.

Python dicts for user records are embedded as `StoredUser` (a field that a
record may lack, such as `user_id` before assignment, is an `Option`).  The
database object `db` returned by `get_db()` is embedded as `DB`: a capability
profile (which attributes `hasattr` finds), the `users` relation, the next
row id, and a flag modelling a broken raw connection (any `cursor.execute`
raising).  Exceptions are embedded as `PyErr`: `HTTPException(status, detail)`
or any other exception carrying its `str(e)` message.  Each handler returns a
`RunResult`: the outcome, the database after the call, and the trace of
persistence-adapter calls it made (so that "no store access happened" and
"which SQL text was executed with which bound parameters" are observable).
-/

namespace Users

/-- A user record as stored / returned (`UserResponse` shape of the source:
`user_id`, `email`, `full_name`, `role` nullable). -/
structure StoredUser where
  user_id : Option Nat
  username : String
  email : Option String
  full_name : Option String
  role : Option String
deriving Repr, DecidableEq

/-- Request body of POST `/users` (`UserCreate` in the source); `role`
defaults to `"user"` at the transport layer, so it is plain here. -/
structure UserCreate where
  username : String
  email : String
  full_name : Option String
  role : String
deriving Repr, DecidableEq

/-- Request body of PUT `/users/\x7busername\x7d` (`UserUpdate` in the
source); `none` means the field was absent from the body. -/
structure UserUpdate where
  email : Option String
  full_name : Option String
  role : Option String
deriving Repr, DecidableEq

/-- The role pattern `^(user|approver|admin)$` of the source's pydantic
fields. -/
def validRole (r : String) : Bool :=
  r = "user" || r = "approver" || r = "admin"

/-- Structural validation the transport applies to a `UserCreate` body
before the handler runs (field lengths and the role pattern of the source's
pydantic model). -/
def UserCreate.valid (u : UserCreate) : Bool :=
  decide (2 ≤ u.username.length) && decide (u.username.length ≤ 100) &&
  decide (u.email.length ≤ 200) &&
  (match u.full_name with
   | some f => decide (f.length ≤ 200)
   | none => true) &&
  validRole u.role

/-- Which optional attributes `hasattr(db, ...)` finds on the store object. -/
structure DBCaps where
  hasListUsers : Bool
  hasListApprovers : Bool
  hasGetUserByUsername : Bool
  hasCreateUser : Bool
  hasUpdateUser : Bool
  hasDeleteUser : Bool
  hasGetConnection : Bool
deriving Repr, DecidableEq

/-- The store object returned by `get_db()`: capability profile, the `users`
relation, the next `user_id` the engine will assign, and — when
`connErrMsg = some m` — a raw connection whose `cursor.execute` raises an
exception with message `m`. -/
structure DB where
  caps : DBCaps
  users : List StoredUser
  nextId : Nat
  connErrMsg : Option String
deriving Repr, DecidableEq

/-- One persistence-adapter interaction made by a handler: either a call of a
dedicated store operation, or a raw `cursor.execute` recorded with the exact
SQL text and the tuple of bound parameters (a `none` parameter is SQL NULL).
`user_id` values never travel as parameters in the source, so `Option String`
covers every bound value. -/
inductive StoreCall where
  | listUsersCall (role : Option String)
  | listApproversCall
  | getUserByUsernameCall (username : String)
  | createUserCall (username : String) (email : String)
      (full_name : Option String) (role : String)
  | updateUserCall (username : String) (updates : UserUpdate)
  | deleteUserCall (username : String)
  | rawExec (stmt : String) (params : List (Option String))
deriving Repr, DecidableEq

/-- Python exceptions as the handlers observe them: `HTTPException` with a
status code and detail string, or any other exception with its `str(e)`. -/
inductive PyErr where
  | httpExc (status : Nat) (detail : String)
  | other (msg : String)
deriving Repr, DecidableEq

/-- Outcome of one handler call: result (or exception escaping to the
transport), store state afterwards, and the adapter-call trace. -/
structure RunResult (α : Type) where
  result : Except PyErr α
  db : DB
  trace : List StoreCall
deriving Repr

/-- The `except HTTPException: raise / except Exception as e: ...
HTTPException(status_code=500, detail=str(e))` boundary wrapped around every
handler body in the source. -/
def boundary {α : Type} (r : Except PyErr α) : Except PyErr α :=
  match r with
  | .ok a => .ok a
  | .error (.httpExc s d) => .error (.httpExc s d)
  | .error (.other m) => .error (.httpExc 500 m)

/-- Caller identities as the dependency layer resolves them. -/
inductive Role where
  | user
  | approver
  | admin
deriving Repr, DecidableEq

/-- A resolved caller identity; `none` at a call site models an absent or
unresolvable token. -/
structure Identity where
  role : Role
deriving Repr, DecidableEq

/-- Modelled from the spec: `verify_token` of `controller/deps` (not under
`src/`) — read operations require only a validly resolved identity; an
unresolvable or absent token fails with a permission error (HTTP 401) before
the handler body runs. -/
def verify_token (tok : Option Identity) : Except PyErr Identity :=
  match tok with
  | some i => .ok i
  | none => .error (.httpExc 401 "Invalid or missing token")

/-- Modelled from the spec: `require_admin` of `controller/deps` (not under
`src/`) — mutating operations additionally require the resolved identity's
role to be `admin`; any other role fails with a permission error (HTTP 403),
an absent token with 401, before the handler body runs. -/
def require_admin (tok : Option Identity) : Except PyErr Identity :=
  match tok with
  | none => .error (.httpExc 401 "Invalid or missing token")
  | some i =>
    if i.role = Role.admin then .ok i
    else .error (.httpExc 403 "Admin role required")

/-- The spec's PermissionDenied kind: missing/invalid identity (401) or a
non-admin attempting a mutation (403). -/
def isPermissionDenied : PyErr → Prop
  | .httpExc s _ => s = 401 ∨ s = 403
  | .other _ => False

instance : DecidablePred isPermissionDenied := by
  intro e
  cases e with
  | httpExc s d => exact inferInstanceAs (Decidable (s = 401 ∨ s = 403))
  | other m => exact inferInstanceAs (Decidable False)

/-! ### Persistence-adapter operations

The adapter implementation is not under `src/`; the dedicated operations are
modelled from the spec (§2, §4.2–4.7).  The raw-query fallbacks are in
`src/users.py` itself; their engine semantics follow the spec's statement
that username uniqueness "is enforced at the store layer". -/

/-- Modelled from the spec: the adapter's native `list_users(role=...)` —
optional role filter, absent meaning all (§4.3). -/
def db_list_users (db : DB) (role : Option String) : List StoredUser :=
  match role with
  | none => db.users
  | some r => db.users.filter (fun u => u.role == some r)

/-- The in-memory filter of the generic strategy (src line 85):
`[u for u in all_users if u.get('role') in ('approver', 'admin')]`. -/
def approverFilter (us : List StoredUser) : List StoredUser :=
  us.filter (fun u => u.role == some "approver" || u.role == some "admin")

/-- Modelled from the spec: the adapter's native `list_approvers()` — the
subset of all users whose role is approver or admin (§4.2, §4.4); ordering is
store-defined, embedded as store order. -/
def db_list_approvers (db : DB) : List StoredUser :=
  approverFilter db.users

/-- Modelled from the spec: the adapter's native `get_user_by_username` —
the record with that username, if any. -/
def db_get_user_by_username (db : DB) (username : String) : Option StoredUser :=
  db.users.find? (fun r => r.username == username)

/-- Modelled from the spec: the adapter's native `create_user` — persists a
new record with an assigned `user_id` (§4.5); uniqueness is enforced at the
store layer (§5), so a duplicate raises a store-level (non-HTTP) exception. -/
def db_create_user (db : DB) (u : UserCreate) : Except PyErr (StoredUser × DB) :=
  if db.users.any (fun r => r.username == u.username) then
    .error (.other "UNIQUE constraint failed: users.username")
  else
    let nu : StoredUser :=
      ⟨some db.nextId, u.username, some u.email, u.full_name, some u.role⟩
    .ok (nu, { db with users := db.users ++ [nu], nextId := db.nextId + 1 })

/-- Merge a partial update into a stored record: only supplied fields
change. -/
def mergeUser (u : StoredUser) (upd : UserUpdate) : StoredUser where
  user_id := u.user_id
  username := u.username
  email := match upd.email with | some e => some e | none => u.email
  full_name := match upd.full_name with | some f => some f | none => u.full_name
  role := match upd.role with | some r => some r | none => u.role

/-- Semantics of `UPDATE users SET ... WHERE username = ?`: every matching
row receives the supplied fields, every other row is untouched. -/
def applyRawUpdate (users : List StoredUser) (username : String)
    (upd : UserUpdate) : List StoredUser :=
  users.map (fun r => if r.username == username then mergeUser r upd else r)

/-- Modelled from the spec: the adapter's native `update_user(username,
fields)` — partial update, only supplied fields change, returns the merged
view (§4.6); no matching record raises a store-level (non-HTTP) exception. -/
def db_update_user (db : DB) (username : String) (upd : UserUpdate) :
    Except PyErr (StoredUser × DB) :=
  match db.users.find? (fun r => r.username == username) with
  | some r =>
    .ok (mergeUser r upd, { db with users := applyRawUpdate db.users username upd })
  | none => .error (.other ("User " ++ username ++ " not found"))

/-- Modelled from the spec: the adapter's native `delete_user(username)` —
removes any matching record; the spec (§2) assigns the adapter-level
operation no error contract, so an absent username removes nothing and
reports nothing. -/
def db_delete_user (db : DB) (username : String) : DB :=
  { db with users := db.users.filter (fun r => !(r.username == username)) }

/-! ### Raw SQL text (fallback paths of src/users.py)

Whitespace of the Python triple-quoted statements is flattened to single
spaces; `\x27` is the single-quote character inside the SQL text. -/

/-- src lines 150–153: the fallback INSERT, all four values bound. -/
def insertStmt : String :=
  "INSERT INTO users (username, email, full_name, role) VALUES (?, ?, ?, ?)"

/-- src line 250: the fallback DELETE, the username bound. -/
def deleteStmt : String :=
  "DELETE FROM users WHERE username = ?"

/-- src lines 92–97: the fallback approver SELECT; no user-supplied value
appears, role literals are part of the constant text. -/
def approverSelectStmt : String :=
  "SELECT user_id, username, email, full_name, role FROM users WHERE role IN (\x27approver\x27, \x27admin\x27) ORDER BY full_name, username"

/-- src lines 194–204: `update_fields`, built conditionally per supplied
field, in source order email, full_name, role. -/
def updateFieldNames (upd : UserUpdate) : List String :=
  (if upd.email.isSome then ["email = ?"] else []) ++
  (if upd.full_name.isSome then ["full_name = ?"] else []) ++
  (if upd.role.isSome then ["role = ?"] else [])

/-- src lines 194–204: `params`, the bound values in the same order. -/
def updateParams (upd : UserUpdate) : List (Option String) :=
  (match upd.email with | some e => [some e] | none => []) ++
  (match upd.full_name with | some f => [some f] | none => []) ++
  (match upd.role with | some r => [some r] | none => [])

/-- src lines 209–212: `UPDATE users SET {fields} WHERE username = ?`
(whitespace flattened). -/
def updateStmt (upd : UserUpdate) : String :=
  "UPDATE users SET " ++ String.intercalate ", " (updateFieldNames upd) ++
    " WHERE username = ?"

/-- SQLite `ORDER BY` (ascending) puts NULL before every string. -/
def nullsFirstLe (a b : Option String) : Bool :=
  match a, b with
  | none, _ => true
  | some _, none => false
  | some x, some y => x ≤ y

/-- The sort key of `ORDER BY full_name, username`: lexicographic on
(`full_name`, `username`), NULLs first. -/
def sqlOrderLe (a b : StoredUser) : Bool :=
  if a.full_name = b.full_name then a.username ≤ b.username
  else nullsFirstLe a.full_name b.full_name

/-- Result rows of the fallback approver SELECT (src lines 92–108): the
rows with role approver or admin, ordered by the SQL sort key; the Python
comprehension rebuilding dicts from the five selected columns is the
identity on the record.  (`insertionSort` stands in for the engine's sort:
only a sorted permutation is specified.) -/
def rawApproverRows (db : DB) : List StoredUser :=
  List.insertionSort (fun a b => sqlOrderLe a b = true) (approverFilter db.users)

/-! ### Route handlers (src/users.py lines 50–265) -/

/-- src lines 50–67, `list_users`: verify token; `db.list_users(role=role)
if hasattr(db, 'list_users') else []`; respond with the list and its count.
The response dict `\x7busers, count\x7d` is embedded as the pair. -/
def list_users (tok : Option Identity) (role : Option String) (db : DB) :
    RunResult (List StoredUser × Nat) :=
  match verify_token tok with
  | .error e => ⟨.error e, db, []⟩
  | .ok _ =>
    if db.caps.hasListUsers then
      let users := db_list_users db role
      ⟨boundary (.ok (users, users.length)), db, [.listUsersCall role]⟩
    else
      ⟨boundary (.ok ([], 0)), db, []⟩

/-- src lines 70–118, `list_approvers`: verify token; dedicated op if
present, else list-then-filter, else the raw SELECT inside an inner
`try/except` that logs and leaves `approvers = []` when the query raises;
respond with the list and its count. -/
def list_approvers (tok : Option Identity) (db : DB) :
    RunResult (List StoredUser × Nat) :=
  match verify_token tok with
  | .error e => ⟨.error e, db, []⟩
  | .ok _ =>
    if db.caps.hasListApprovers then
      let approvers := db_list_approvers db
      ⟨boundary (.ok (approvers, approvers.length)), db, [.listApproversCall]⟩
    else if db.caps.hasListUsers then
      let approvers := approverFilter (db_list_users db none)
      ⟨boundary (.ok (approvers, approvers.length)), db, [.listUsersCall none]⟩
    else if db.caps.hasGetConnection then
      match db.connErrMsg with
      | some _ =>
        ⟨boundary (.ok ([], 0)), db, [.rawExec approverSelectStmt []]⟩
      | none =>
        let approvers := rawApproverRows db
        ⟨boundary (.ok (approvers, approvers.length)), db,
          [.rawExec approverSelectStmt []]⟩
    else
      ⟨boundary (.ok ([], 0)), db, []⟩

/-- src lines 137–163: the creation dispatch of `create_user` after the
optional duplicate check — dedicated `db.create_user`, else the raw INSERT
when a connection exists, else HTTP 501. `tr` is the trace accumulated by
the duplicate check. -/
def createDispatch (u : UserCreate) (db : DB) (tr : List StoreCall) :
    RunResult StoredUser :=
  if db.caps.hasCreateUser then
    let tr' := tr ++ [.createUserCall u.username u.email u.full_name u.role]
    match db_create_user db u with
    | .ok (nu, db') => ⟨boundary (.ok nu), db', tr'⟩
    | .error e => ⟨boundary (.error e), db, tr'⟩
  else if db.caps.hasGetConnection then
    let tr' := tr ++
      [.rawExec insertStmt [some u.username, some u.email, u.full_name, some u.role]]
    match db.connErrMsg with
    | some m => ⟨boundary (.error (.other m)), db, tr'⟩
    | none =>
      if db.users.any (fun r => r.username == u.username) then
        ⟨boundary (.error (.other "UNIQUE constraint failed: users.username")),
          db, tr'⟩
      else
        let nu : StoredUser :=
          ⟨some db.nextId, u.username, some u.email, u.full_name, some u.role⟩
        ⟨boundary (.ok nu),
          { db with users := db.users ++ [nu], nextId := db.nextId + 1 }, tr'⟩
  else
    ⟨boundary (.error (.httpExc 501 "User creation not supported")), db, tr⟩

/-- src lines 121–175, `create_user`: require admin; duplicate check via
`get_user_by_username` only when the store has that attribute (HTTP 409 on a
hit, detail naming the username); then the creation dispatch.  The success
payload `\x7bmessage, user\x7d` is embedded as the created record. -/
def create_user (tok : Option Identity) (u : UserCreate) (db : DB) :
    RunResult StoredUser :=
  match require_admin tok with
  | .error e => ⟨.error e, db, []⟩
  | .ok _ =>
    if db.caps.hasGetUserByUsername then
      match db_get_user_by_username db u.username with
      | some _ =>
        ⟨boundary (.error (.httpExc 409 ("User " ++ u.username ++ " already exists"))),
          db, [.getUserByUsernameCall u.username]⟩
      | none => createDispatch u db [.getUserByUsernameCall u.username]
    else
      createDispatch u db []

/-- The handler's `updated` value: the record the dedicated store op
returned, or — on the raw path — the dict
`\x7b"username": username, **updates.dict(exclude_none=True)\x7d`. -/
inductive UpdatedView where
  | fromStore (u : StoredUser) : UpdatedView
  | fromRequest (username : String) (upd : UserUpdate) : UpdatedView
deriving Repr, DecidableEq

/-- src lines 178–232, `update_user`: require admin; dedicated
`db.update_user` if present, else the raw UPDATE built from the supplied
fields — skipped entirely when no field is supplied (`if update_fields:`),
HTTP 404 when it affects zero rows — else HTTP 501. -/
def update_user (tok : Option Identity) (username : String)
    (updates : UserUpdate) (db : DB) : RunResult UpdatedView :=
  match require_admin tok with
  | .error e => ⟨.error e, db, []⟩
  | .ok _ =>
    if db.caps.hasUpdateUser then
      match db_update_user db username updates with
      | .ok (u, db') =>
        ⟨boundary (.ok (.fromStore u)), db', [.updateUserCall username updates]⟩
      | .error e => ⟨boundary (.error e), db, [.updateUserCall username updates]⟩
    else if db.caps.hasGetConnection then
      if (updateFieldNames updates).isEmpty then
        ⟨boundary (.ok (.fromRequest username updates)), db, []⟩
      else
        let tr := [.rawExec (updateStmt updates) (updateParams updates ++ [some username])]
        match db.connErrMsg with
        | some m => ⟨boundary (.error (.other m)), db, tr⟩
        | none =>
          let rowcount := (db.users.filter (fun r => r.username == username)).length
          let db' := { db with users := applyRawUpdate db.users username updates }
          if rowcount = 0 then
            ⟨boundary (.error (.httpExc 404 ("User " ++ username ++ " not found"))),
              db', tr⟩
          else
            ⟨boundary (.ok (.fromRequest username updates)), db', tr⟩
    else
      ⟨boundary (.error (.httpExc 501 "User update not supported")), db, []⟩

/-- src lines 235–265, `delete_user`: require admin; dedicated
`db.delete_user` if present — its return value is ignored and no row count
is checked — else the raw DELETE with HTTP 404 when zero rows are affected,
else HTTP 501.  The success payload is the message string. -/
def delete_user (tok : Option Identity) (username : String) (db : DB) :
    RunResult String :=
  match require_admin tok with
  | .error e => ⟨.error e, db, []⟩
  | .ok _ =>
    if db.caps.hasDeleteUser then
      ⟨boundary (.ok ("User " ++ username ++ " deleted successfully")),
        db_delete_user db username, [.deleteUserCall username]⟩
    else if db.caps.hasGetConnection then
      let tr := [.rawExec deleteStmt [some username]]
      match db.connErrMsg with
      | some m => ⟨boundary (.error (.other m)), db, tr⟩
      | none =>
        let rowcount := (db.users.filter (fun r => r.username == username)).length
        let db' := db_delete_user db username
        if rowcount = 0 then
          ⟨boundary (.error (.httpExc 404 ("User " ++ username ++ " not found"))),
            db', tr⟩
        else
          ⟨boundary (.ok ("User " ++ username ++ " deleted successfully")), db', tr⟩
    else
      ⟨boundary (.error (.httpExc 501 "User deletion not supported")), db, []⟩

/-- The SQL texts a run executed, in order (projection of the trace used to
state injection-safety). -/
def stmtsOf (tr : List StoreCall) : List String :=
  tr.filterMap (fun c => match c with
    | .rawExec s _ => some s
    | _ => none)

/-- Structural validation the transport applies to a `UserUpdate` body
(field lengths and the role pattern of the source's pydantic model; an
absent field is not validated). -/
def UserUpdate.valid (u : UserUpdate) : Bool :=
  (match u.email with | some e => decide (e.length ≤ 200) | none => true) &&
  (match u.full_name with | some f => decide (f.length ≤ 200) | none => true) &&
  (match u.role with | some r => validRole r | none => true)

/-! ### Sample data for concrete evaluations -/

def aliceRec : StoredUser := ⟨some 1, "alice", some "a@x.com", some "Alice", some "approver"⟩

def bobRec : StoredUser := ⟨some 2, "bob", some "b@x.com", none, some "user"⟩

def adminTok : Option Identity := some ⟨Role.admin⟩

def userTok : Option Identity := some ⟨Role.user⟩

/-- Profile of a store exposing only `get_connection` (every operation takes
the raw-query fallback). -/
def rawCaps : DBCaps := ⟨false, false, false, false, false, false, true⟩

/-- Profile of a store exposing no optional attribute at all. -/
def noCaps : DBCaps := ⟨false, false, false, false, false, false, false⟩

/-- Profile of a store exposing every dedicated operation. -/
def fullCaps : DBCaps := ⟨true, true, true, true, true, true, true⟩

def dbRawSample : DB := ⟨rawCaps, [aliceRec, bobRec], 3, none⟩

/-! ### Helper lemmas -/

/-- A token that does not resolve to an admin identity is rejected by
`require_admin` with a permission error. -/
theorem require_admin_denied (tok : Option Identity)
    (h : ∀ i, tok = some i → i.role ≠ Role.admin) :
    ∃ e, require_admin tok = .error e ∧ isPermissionDenied e := by
  cases tok with
  | none => exact ⟨_, rfl, Or.inl rfl⟩
  | some i =>
    refine ⟨PyErr.httpExc 403 "Admin role required", ?_, Or.inr rfl⟩
    simp [require_admin, h i rfl]

/-! ### Claims -/

/-- C2: for every create, update, or delete request whose caller identity
does not resolve to the admin role (or whose token is absent/unresolvable),
the operation fails with PermissionDenied, the store is unchanged, and no
persistence-adapter operation (read or write) is invoked before the
failure (the adapter-call trace is empty). -/
theorem mutations_denied_before_store_access
    (tok : Option Identity) (h : ∀ i, tok = some i → i.role ≠ Role.admin)
    (db : DB) (u : UserCreate) (name₁ name₂ : String) (updates : UserUpdate) :
    (∃ e, (create_user tok u db).result = .error e ∧ isPermissionDenied e) ∧
    (create_user tok u db).db = db ∧ (create_user tok u db).trace = [] ∧
    (∃ e, (update_user tok name₁ updates db).result = .error e ∧ isPermissionDenied e) ∧
    (update_user tok name₁ updates db).db = db ∧
    (update_user tok name₁ updates db).trace = [] ∧
    (∃ e, (delete_user tok name₂ db).result = .error e ∧ isPermissionDenied e) ∧
    (delete_user tok name₂ db).db = db ∧ (delete_user tok name₂ db).trace = [] := by
  obtain ⟨e, he, hp⟩ := require_admin_denied tok h
  refine ⟨⟨e, ?_, hp⟩, ?_, ?_, ⟨e, ?_, hp⟩, ?_, ?_, ⟨e, ?_, hp⟩, ?_, ?_⟩ <;>
    simp [create_user, update_user, delete_user, he]

/-- Witness for C2 at a concrete non-admin token and store. -/
theorem mutations_denied_before_store_access_witness :
    (∀ i, userTok = some i → i.role ≠ Role.admin) ∧
    ((∃ e, (create_user userTok ⟨"zed", "z@x.com", none, "user"⟩ dbRawSample).result = .error e ∧
        isPermissionDenied e) ∧
     (create_user userTok ⟨"zed", "z@x.com", none, "user"⟩ dbRawSample).db = dbRawSample ∧
     (create_user userTok ⟨"zed", "z@x.com", none, "user"⟩ dbRawSample).trace = [] ∧
     (∃ e, (update_user userTok "alice" ⟨some "n@x.com", none, none⟩ dbRawSample).result = .error e ∧
        isPermissionDenied e) ∧
     (update_user userTok "alice" ⟨some "n@x.com", none, none⟩ dbRawSample).db = dbRawSample ∧
     (update_user userTok "alice" ⟨some "n@x.com", none, none⟩ dbRawSample).trace = [] ∧
     (∃ e, (delete_user userTok "alice" dbRawSample).result = .error e ∧ isPermissionDenied e) ∧
     (delete_user userTok "alice" dbRawSample).db = dbRawSample ∧
     (delete_user userTok "alice" dbRawSample).trace = []) :=
  ⟨by decide,
   mutations_denied_before_store_access userTok (by decide) dbRawSample
     ⟨"zed", "z@x.com", none, "user"⟩ "alice" "alice" ⟨some "n@x.com", none, none⟩⟩

/-- C7: for every read operation on an adapter with no implementation
strategy — no `list_users` for the list route; neither dedicated op, generic
listing, nor connection for the approver route; and also when the raw
approver query raises — the handler returns a successful empty result with
count 0 rather than failing the request. -/
theorem reads_degrade_gracefully
    (i : Identity) (db₁ db₂ db₃ : DB) (role : Option String) (m : String)
    (h₁ : db₁.caps.hasListUsers = false)
    (h₂a : db₂.caps.hasListApprovers = false) (h₂b : db₂.caps.hasListUsers = false)
    (h₂c : db₂.caps.hasGetConnection = false)
    (h₃a : db₃.caps.hasListApprovers = false) (h₃b : db₃.caps.hasListUsers = false)
    (h₃c : db₃.caps.hasGetConnection = true) (h₃d : db₃.connErrMsg = some m) :
    (list_users (some i) role db₁).result = .ok ([], 0) ∧
    (list_approvers (some i) db₂).result = .ok ([], 0) ∧
    (list_approvers (some i) db₃).result = .ok ([], 0) := by
  refine ⟨?_, ?_, ?_⟩
  · simp [list_users, verify_token, h₁, boundary]
  · simp [list_approvers, verify_token, h₂a, h₂b, h₂c, boundary]
  · simp [list_approvers, verify_token, h₃a, h₃b, h₃c, h₃d, boundary]

/-- Witness for C7 at concrete capability-less stores (one holding a user
that would be visible were a strategy available). -/
theorem reads_degrade_gracefully_witness :
    ((⟨noCaps, [aliceRec], 2, none⟩ : DB).caps.hasListUsers = false ∧
     (⟨noCaps, [aliceRec], 2, none⟩ : DB).caps.hasListApprovers = false ∧
     (⟨noCaps, [aliceRec], 2, none⟩ : DB).caps.hasGetConnection = false ∧
     (⟨rawCaps, [aliceRec], 2, some "no such table: users"⟩ : DB).caps.hasGetConnection = true ∧
     (⟨rawCaps, [aliceRec], 2, some "no such table: users"⟩ : DB).connErrMsg =
       some "no such table: users") ∧
    ((list_users userTok none ⟨noCaps, [aliceRec], 2, none⟩).result = .ok ([], 0) ∧
     (list_approvers userTok ⟨noCaps, [aliceRec], 2, none⟩).result = .ok ([], 0) ∧
     (list_approvers userTok ⟨rawCaps, [aliceRec], 2, some "no such table: users"⟩).result =
       .ok ([], 0)) :=
  ⟨by decide,
   reads_degrade_gracefully ⟨Role.user⟩ ⟨noCaps, [aliceRec], 2, none⟩
     ⟨noCaps, [aliceRec], 2, none⟩ ⟨rawCaps, [aliceRec], 2, some "no such table: users"⟩
     none "no such table: users" rfl rfl rfl rfl rfl rfl rfl rfl⟩

/-- C10: the list route accepts any string as its role query filter — a
string outside the role enumeration is not rejected, the request succeeds,
and the string is forwarded unchanged to the store's `list_users` — whereas
the same string in a create or update body fails the role-pattern
validation. -/
theorem list_role_filter_not_validated
    (i : Identity) (s : String) (hs : validRole s = false) (db : DB)
    (hlist : db.caps.hasListUsers = true) :
    (list_users (some i) (some s) db).result =
      .ok (db_list_users db (some s), (db_list_users db (some s)).length) ∧
    (list_users (some i) (some s) db).trace = [.listUsersCall (some s)] ∧
    (∀ u : UserCreate, u.role = s → u.valid = false) ∧
    (∀ upd : UserUpdate, upd.role = some s → upd.valid = false) := by
  refine ⟨?_, ?_, ?_, ?_⟩
  · simp [list_users, verify_token, hlist, boundary]
  · simp [list_users, verify_token, hlist]
  · intro u hu
    simp [UserCreate.valid, hu, hs]
  · intro upd hupd
    simp [UserUpdate.valid, hupd, hs]

/-- Witness for C10 at the concrete filter string "banana". -/
theorem list_role_filter_not_validated_witness :
    validRole "banana" = false ∧
    ((⟨fullCaps, [aliceRec, bobRec], 3, none⟩ : DB).caps.hasListUsers = true ∧
     (list_users userTok (some "banana") ⟨fullCaps, [aliceRec, bobRec], 3, none⟩).result =
       .ok (db_list_users ⟨fullCaps, [aliceRec, bobRec], 3, none⟩ (some "banana"),
            (db_list_users ⟨fullCaps, [aliceRec, bobRec], 3, none⟩ (some "banana")).length) ∧
     (list_users userTok (some "banana") ⟨fullCaps, [aliceRec, bobRec], 3, none⟩).trace =
       [.listUsersCall (some "banana")] ∧
     (∀ u : UserCreate, u.role = "banana" → u.valid = false) ∧
     (∀ upd : UserUpdate, upd.role = some "banana" → upd.valid = false)) :=
  ⟨by decide,
   ⟨rfl, (list_role_filter_not_validated ⟨Role.user⟩ "banana" (by decide)
     ⟨fullCaps, [aliceRec, bobRec], 3, none⟩ rfl)⟩⟩

/-- C1: for every store state, the approver listing succeeds and returns
exactly the users whose role is approver or admin, and — as a multiset —
the same collection is returned whichever of the three resolver strategies
serves the request: the dedicated `list_approvers` operation (profile with
the attribute), generic list-then-filter (profile with `list_users` only),
or the raw-query fallback (connection only, query succeeding). -/
theorem list_approvers_path_independent
    (i : Identity) (users : List StoredUser)
    (capsA capsB capsC : DBCaps) (nA nB nC : Nat) (cA cB : Option String)
    (hA : capsA.hasListApprovers = true)
    (hB : capsB.hasListApprovers = false) (hB' : capsB.hasListUsers = true)
    (hC : capsC.hasListApprovers = false) (hC' : capsC.hasListUsers = false)
    (hC'' : capsC.hasGetConnection = true) :
    ∃ lA lB lC : List StoredUser,
      (list_approvers (some i) ⟨capsA, users, nA, cA⟩).result = .ok (lA, lA.length) ∧
      (list_approvers (some i) ⟨capsB, users, nB, cB⟩).result = .ok (lB, lB.length) ∧
      (list_approvers (some i) ⟨capsC, users, nC, none⟩).result = .ok (lC, lC.length) ∧
      lA = approverFilter users ∧ lB = approverFilter users ∧
      lC.Perm (approverFilter users) := by
  refine ⟨approverFilter users, approverFilter users,
    rawApproverRows ⟨capsC, users, nC, none⟩, ?_, ?_, ?_, rfl, rfl, ?_⟩
  · simp [list_approvers, verify_token, hA, boundary, db_list_approvers]
  · simp [list_approvers, verify_token, hB, hB', boundary, db_list_users]
  · simp [list_approvers, verify_token, hC, hC', hC'', boundary]
  · exact List.perm_insertionSort _ _

/-- Witness for C1 at a concrete user population and the three concrete
capability profiles. -/
theorem list_approvers_path_independent_witness :
    (fullCaps.hasListApprovers = true ∧
     (⟨true, false, false, false, false, false, false⟩ : DBCaps).hasListApprovers = false ∧
     (⟨true, false, false, false, false, false, false⟩ : DBCaps).hasListUsers = true ∧
     rawCaps.hasListApprovers = false ∧ rawCaps.hasListUsers = false ∧
     rawCaps.hasGetConnection = true) ∧
    (∃ lA lB lC : List StoredUser,
      (list_approvers userTok ⟨fullCaps, [aliceRec, bobRec], 3, none⟩).result =
        .ok (lA, lA.length) ∧
      (list_approvers userTok
        ⟨⟨true, false, false, false, false, false, false⟩, [aliceRec, bobRec], 3, none⟩).result =
        .ok (lB, lB.length) ∧
      (list_approvers userTok ⟨rawCaps, [aliceRec, bobRec], 3, none⟩).result =
        .ok (lC, lC.length) ∧
      lA = approverFilter [aliceRec, bobRec] ∧ lB = approverFilter [aliceRec, bobRec] ∧
      lC.Perm (approverFilter [aliceRec, bobRec])) :=
  ⟨by decide,
   list_approvers_path_independent ⟨Role.user⟩ [aliceRec, bobRec] fullCaps
     ⟨true, false, false, false, false, false, false⟩ rawCaps 3 3 3 none none
     rfl rfl rfl rfl rfl rfl⟩

/-- C3 counterexample: on the raw-insert profile (no `get_user_by_username`,
no `create_user`, a working connection), creating the already-present
username "alice" does NOT fail with Conflict (409): the store's uniqueness
rejection escapes the duplicate check — which never ran — and is surfaced
as HTTP 500.  The store is left unchanged. -/
theorem create_duplicate_raw_counterexample :
    (create_user adminTok ⟨"alice", "a2@x.com", none, "user"⟩ dbRawSample).result =
      .error (.httpExc 500 "UNIQUE constraint failed: users.username") ∧
    (create_user adminTok ⟨"alice", "a2@x.com", none, "user"⟩ dbRawSample).db = dbRawSample ∧
    ∀ d, (create_user adminTok ⟨"alice", "a2@x.com", none, "user"⟩ dbRawSample).result ≠
      .error (.httpExc 409 d) := by
  refine ⟨rfl, rfl, ?_⟩
  intro d hd
  rw [show (create_user adminTok ⟨"alice", "a2@x.com", none, "user"⟩ dbRawSample).result =
      .error (.httpExc 500 "UNIQUE constraint failed: users.username") from rfl] at hd
  simp at hd

/-- C3 amended: creating a username that already has a stored record always
leaves the store unchanged (neither overwritten nor duplicated), but the
failure kind depends on the capability profile: with a `get_user_by_username`
capability the operation fails with Conflict (409); on the raw-insert
fallback (no `get_user_by_username`, no `create_user`) the store's
uniqueness rejection is surfaced as InternalFailure (500), not Conflict. -/
theorem create_duplicate_no_mutation
    (tok : Option Identity) (i : Identity) (ht : tok = some i)
    (hadm : i.role = Role.admin) (dbA dbB : DB) (u : UserCreate)
    (hdupA : dbA.users.any (fun r => r.username == u.username) = true)
    (hA : dbA.caps.hasGetUserByUsername = true)
    (hdupB : dbB.users.any (fun r => r.username == u.username) = true)
    (hB₁ : dbB.caps.hasGetUserByUsername = false) (hB₂ : dbB.caps.hasCreateUser = false)
    (hB₃ : dbB.caps.hasGetConnection = true) (hB₄ : dbB.connErrMsg = none) :
    (create_user tok u dbA).result =
      .error (.httpExc 409 ("User " ++ u.username ++ " already exists")) ∧
    (create_user tok u dbA).db = dbA ∧
    (create_user tok u dbB).result =
      .error (.httpExc 500 "UNIQUE constraint failed: users.username") ∧
    (create_user tok u dbB).db = dbB := by
  subst ht
  have hfindA : ∃ v, db_get_user_by_username dbA u.username = some v := by
    rw [← Option.isSome_iff_exists, db_get_user_by_username, List.find?_isSome]
    exact List.any_eq_true.mp hdupA
  obtain ⟨v, hv⟩ := hfindA
  refine ⟨?_, ?_, ?_, ?_⟩
  · simp [create_user, require_admin, hadm, hA, hv, boundary]
  · simp [create_user, require_admin, hadm, hA, hv]
  · simp [create_user, require_admin, hadm, hB₁, createDispatch, hB₂, hB₃, hB₄,
      hdupB, boundary]
  · simp [create_user, require_admin, hadm, hB₁, createDispatch, hB₂, hB₃, hB₄, hdupB]

/-- Witness for amended C3 at concrete duplicate requests against a
`get_user_by_username` profile and a raw-insert profile. -/
theorem create_duplicate_no_mutation_witness :
    (([aliceRec] : List StoredUser).any (fun r => r.username == "alice") = true ∧
     (⟨⟨false, false, true, false, false, false, false⟩, [aliceRec], 2, none⟩ : DB).caps.hasGetUserByUsername = true ∧
     dbRawSample.users.any (fun r => r.username == "alice") = true ∧
     dbRawSample.caps.hasGetUserByUsername = false ∧
     dbRawSample.caps.hasCreateUser = false ∧
     dbRawSample.caps.hasGetConnection = true ∧ dbRawSample.connErrMsg = none) ∧
    ((create_user adminTok ⟨"alice", "a2@x.com", none, "admin"⟩
        ⟨⟨false, false, true, false, false, false, false⟩, [aliceRec], 2, none⟩).result =
      .error (.httpExc 409 ("User " ++ "alice" ++ " already exists")) ∧
     (create_user adminTok ⟨"alice", "a2@x.com", none, "admin"⟩
        ⟨⟨false, false, true, false, false, false, false⟩, [aliceRec], 2, none⟩).db =
      ⟨⟨false, false, true, false, false, false, false⟩, [aliceRec], 2, none⟩ ∧
     (create_user adminTok ⟨"alice", "a2@x.com", none, "admin"⟩ dbRawSample).result =
      .error (.httpExc 500 "UNIQUE constraint failed: users.username") ∧
     (create_user adminTok ⟨"alice", "a2@x.com", none, "admin"⟩ dbRawSample).db =
      dbRawSample) :=
  ⟨by decide,
   create_duplicate_no_mutation adminTok ⟨Role.admin⟩ rfl rfl
     ⟨⟨false, false, true, false, false, false, false⟩, [aliceRec], 2, none⟩ dbRawSample
     ⟨"alice", "a2@x.com", none, "admin"⟩ (by decide) rfl (by decide) rfl rfl rfl rfl⟩

/-- C4 counterexample: on the dedicated `delete_user` profile the handler
checks no row count: deleting "alice" from a one-user store succeeds, and a
second delete of the now-absent "alice" ALSO reports success — it does not
fail with NotFound (404). -/
theorem delete_twice_dedicated_counterexample :
    (delete_user adminTok "alice"
        ⟨⟨false, false, false, false, false, true, false⟩, [aliceRec], 2, none⟩).result =
      .ok "User alice deleted successfully" ∧
    (delete_user adminTok "alice"
        (delete_user adminTok "alice"
          ⟨⟨false, false, false, false, false, true, false⟩, [aliceRec], 2, none⟩).db).result =
      .ok "User alice deleted successfully" ∧
    ∀ d, (delete_user adminTok "alice"
        (delete_user adminTok "alice"
          ⟨⟨false, false, false, false, false, true, false⟩, [aliceRec], 2, none⟩).db).result ≠
      .error (.httpExc 404 d) := by
  refine ⟨rfl, rfl, ?_⟩
  intro d hd
  rw [show (delete_user adminTok "alice"
      (delete_user adminTok "alice"
        ⟨⟨false, false, false, false, false, true, false⟩, [aliceRec], 2, none⟩).db).result =
      .ok "User alice deleted successfully" from rfl] at hd
  simp at hd

/-- No row with the deleted username survives `db_delete_user`. -/
theorem filter_after_delete (users : List StoredUser) (username : String) :
    (users.filter (fun r => !(r.username == username))).filter
      (fun r => r.username == username) = [] := by
  rw [List.filter_filter]
  refine List.filter_eq_nil_iff.mpr ?_
  intro a _
  cases h : a.username == username <;> simp [h]

/-- C4 amended: double delete of the same username behaves
profile-dependently.  On the raw-query fallback profile the first delete of
an existing username succeeds and the second fails with NotFound (404).  On
the dedicated `delete_user` profile the handler performs no not-found check:
both the first and the second delete report success. -/
theorem delete_twice_raw_not_found
    (tok : Option Identity) (i : Identity) (ht : tok = some i)
    (hadm : i.role = Role.admin) (db : DB) (username : String)
    (h₁ : db.caps.hasDeleteUser = false) (h₂ : db.caps.hasGetConnection = true)
    (h₃ : db.connErrMsg = none)
    (hmem : db.users.any (fun r => r.username == username) = true)
    (db₂ : DB) (h₄ : db₂.caps.hasDeleteUser = true) :
    (delete_user tok username db).result =
      .ok ("User " ++ username ++ " deleted successfully") ∧
    (delete_user tok username (delete_user tok username db).db).result =
      .error (.httpExc 404 ("User " ++ username ++ " not found")) ∧
    (delete_user tok username db₂).result =
      .ok ("User " ++ username ++ " deleted successfully") ∧
    (delete_user tok username (delete_user tok username db₂).db).result =
      .ok ("User " ++ username ++ " deleted successfully") := by
  subst ht
  obtain ⟨x, hx, hpx⟩ := List.any_eq_true.mp hmem
  have hpos : (db.users.filter (fun r => r.username == username)).length ≠ 0 :=
    Nat.pos_iff_ne_zero.mp
      (List.length_pos_of_mem (List.mem_filter.mpr ⟨hx, hpx⟩))
  refine ⟨?_, ?_, ?_, ?_⟩
  · simp [delete_user, require_admin, hadm, h₁, h₂, h₃, hpos, boundary]
  · simp [delete_user, require_admin, hadm, h₁, h₂, h₃, hpos, boundary,
      db_delete_user, filter_after_delete]
  · simp [delete_user, require_admin, hadm, h₄, boundary]
  · simp [delete_user, require_admin, hadm, h₄, boundary, db_delete_user]

/-- Witness for amended C4 at a concrete store on both profiles. -/
theorem delete_twice_raw_not_found_witness :
    ((⟨rawCaps, [aliceRec], 2, none⟩ : DB).caps.hasDeleteUser = false ∧
     (⟨rawCaps, [aliceRec], 2, none⟩ : DB).caps.hasGetConnection = true ∧
     (⟨rawCaps, [aliceRec], 2, none⟩ : DB).connErrMsg = none ∧
     ([aliceRec] : List StoredUser).any (fun r => r.username == "alice") = true ∧
     (⟨⟨false, false, false, false, false, true, false⟩, [aliceRec], 2, none⟩ : DB).caps.hasDeleteUser = true) ∧
    ((delete_user adminTok "alice" ⟨rawCaps, [aliceRec], 2, none⟩).result =
      .ok ("User " ++ "alice" ++ " deleted successfully") ∧
     (delete_user adminTok "alice"
        (delete_user adminTok "alice" ⟨rawCaps, [aliceRec], 2, none⟩).db).result =
      .error (.httpExc 404 ("User " ++ "alice" ++ " not found")) ∧
     (delete_user adminTok "alice"
        ⟨⟨false, false, false, false, false, true, false⟩, [aliceRec], 2, none⟩).result =
      .ok ("User " ++ "alice" ++ " deleted successfully") ∧
     (delete_user adminTok "alice"
        (delete_user adminTok "alice"
          ⟨⟨false, false, false, false, false, true, false⟩, [aliceRec], 2, none⟩).db).result =
      .ok ("User " ++ "alice" ++ " deleted successfully")) :=
  ⟨by decide,
   delete_twice_raw_not_found adminTok ⟨Role.admin⟩ rfl rfl
     ⟨rawCaps, [aliceRec], 2, none⟩ "alice" rfl rfl rfl (by decide)
     ⟨⟨false, false, false, false, false, true, false⟩, [aliceRec], 2, none⟩ rfl⟩

/-- C5 counterexample: on the raw-query profile, updating the nonexistent
username "carol" with the EMPTY field set does not fail with NotFound (404):
the handler skips the UPDATE (`if update_fields:`) and reports success. -/
theorem update_missing_empty_counterexample :
    (update_user adminTok "carol" ⟨none, none, none⟩ dbRawSample).result =
      .ok (.fromRequest "carol" ⟨none, none, none⟩) ∧
    (update_user adminTok "carol" ⟨none, none, none⟩ dbRawSample).db = dbRawSample ∧
    ∀ d, (update_user adminTok "carol" ⟨none, none, none⟩ dbRawSample).result ≠
      .error (.httpExc 404 d) := by
  refine ⟨rfl, rfl, ?_⟩
  intro d hd
  rw [show (update_user adminTok "carol" ⟨none, none, none⟩ dbRawSample).result =
      .ok (.fromRequest "carol" ⟨none, none, none⟩) from rfl] at hd
  simp at hd

/-- A raw UPDATE whose WHERE clause matches no row changes nothing. -/
theorem applyRawUpdate_no_match (users : List StoredUser) (username : String)
    (upd : UserUpdate) (h : ∀ r ∈ users, (r.username == username) = false) :
    applyRawUpdate users username upd = users := by
  induction users with
  | nil => rfl
  | cons a t ih =>
    have ha := h a (by simp)
    have ht : ∀ r ∈ t, (r.username == username) = false := fun r hr => h r (by simp [hr])
    have iht := ih ht
    simp only [applyRawUpdate, List.map_cons] at iht ⊢
    rw [show (if (a.username == username) = true then mergeUser a upd else a) = a from by
      simp [ha]]
    rw [iht]

/-- C5 amended: on the raw-query path, an update whose username matches no
stored record fails with NotFound (404) and mutates nothing whenever at
least one field is supplied; with the empty field set the handler skips the
UPDATE statement entirely and reports success — still mutating nothing —
instead of NotFound. -/
theorem update_missing_not_found
    (tok : Option Identity) (i : Identity) (ht : tok = some i)
    (hadm : i.role = Role.admin) (db : DB) (username : String) (updates : UserUpdate)
    (h₁ : db.caps.hasUpdateUser = false) (h₂ : db.caps.hasGetConnection = true)
    (h₃ : db.connErrMsg = none)
    (hmiss : db.users.all (fun r => !(r.username == username)) = true) :
    ((updateFieldNames updates).isEmpty = false →
      (update_user tok username updates db).result =
        .error (.httpExc 404 ("User " ++ username ++ " not found")) ∧
      (update_user tok username updates db).db = db) ∧
    ((updateFieldNames updates).isEmpty = true →
      (update_user tok username updates db).result = .ok (.fromRequest username updates) ∧
      (update_user tok username updates db).db = db) := by
  subst ht
  obtain ⟨caps, dbUsers, nid, cm⟩ := db
  obtain rfl : cm = none := h₃
  dsimp only at h₁ h₂ hmiss
  have hnone : ∀ r ∈ dbUsers, (r.username == username) = false := by
    intro r hr
    have := List.all_eq_true.mp hmiss r hr
    simpa using this
  have hcount : (dbUsers.filter (fun r => r.username == username)).length = 0 := by
    rw [List.filter_eq_nil_iff.mpr (by intro a ha; simp [hnone a ha])]
    rfl
  have happly := applyRawUpdate_no_match dbUsers username updates hnone
  constructor
  · intro hne
    constructor
    · simp [update_user, require_admin, hadm, h₁, h₂, hne, hcount, boundary]
    · simp [update_user, require_admin, hadm, h₁, h₂, hne, hcount, happly]
  · intro hemp
    constructor
    · simp [update_user, require_admin, hadm, h₁, h₂, hemp, boundary]
    · simp [update_user, require_admin, hadm, h₁, h₂, hemp]

/-- Witness for amended C5 at the nonexistent username "carol", once with a
supplied field and once with the empty field set. -/
theorem update_missing_not_found_witness :
    (dbRawSample.caps.hasUpdateUser = false ∧
     dbRawSample.caps.hasGetConnection = true ∧
     dbRawSample.connErrMsg = none ∧
     dbRawSample.users.all (fun r => !(r.username == "carol")) = true ∧
     (updateFieldNames ⟨some "c@x.com", none, none⟩).isEmpty = false ∧
     (updateFieldNames ⟨none, none, none⟩).isEmpty = true) ∧
    ((update_user adminTok "carol" ⟨some "c@x.com", none, none⟩ dbRawSample).result =
      .error (.httpExc 404 ("User " ++ "carol" ++ " not found")) ∧
     (update_user adminTok "carol" ⟨some "c@x.com", none, none⟩ dbRawSample).db =
       dbRawSample ∧
     (update_user adminTok "carol" ⟨none, none, none⟩ dbRawSample).result =
       .ok (.fromRequest "carol" ⟨none, none, none⟩) ∧
     (update_user adminTok "carol" ⟨none, none, none⟩ dbRawSample).db = dbRawSample) :=
  ⟨by decide,
   ⟨((update_missing_not_found adminTok ⟨Role.admin⟩ rfl rfl dbRawSample "carol"
        ⟨some "c@x.com", none, none⟩ rfl rfl rfl (by decide)).1 rfl).1,
    ((update_missing_not_found adminTok ⟨Role.admin⟩ rfl rfl dbRawSample "carol"
        ⟨some "c@x.com", none, none⟩ rfl rfl rfl (by decide)).1 rfl).2,
    ((update_missing_not_found adminTok ⟨Role.admin⟩ rfl rfl dbRawSample "carol"
        ⟨none, none, none⟩ rfl rfl rfl (by decide)).2 rfl).1,
    ((update_missing_not_found adminTok ⟨Role.admin⟩ rfl rfl dbRawSample "carol"
        ⟨none, none, none⟩ rfl rfl rfl (by decide)).2 rfl).2⟩⟩

/-- C6: on the raw-query path of a successful update of an existing user,
the stored record keeps every field that was absent from the request body,
supplied fields replace old values via the merge, and the single UPDATE
statement executed is built only from the supplied fields — a field fragment
appears in `update_fields` exactly when that field was supplied, so an
unsupplied field is never overwritten (in particular not with null). -/
theorem update_preserves_unsupplied_fields
    (tok : Option Identity) (i : Identity) (ht : tok = some i)
    (hadm : i.role = Role.admin) (db : DB) (username : String) (updates : UserUpdate)
    (h₁ : db.caps.hasUpdateUser = false) (h₂ : db.caps.hasGetConnection = true)
    (h₃ : db.connErrMsg = none)
    (u : StoredUser) (hu : u ∈ db.users) (hname : u.username = username)
    (hne : (updateFieldNames updates).isEmpty = false) :
    (update_user tok username updates db).result = .ok (.fromRequest username updates) ∧
    mergeUser u updates ∈ (update_user tok username updates db).db.users ∧
    (updates.email = none → (mergeUser u updates).email = u.email) ∧
    (updates.full_name = none → (mergeUser u updates).full_name = u.full_name) ∧
    (updates.role = none → (mergeUser u updates).role = u.role) ∧
    (mergeUser u updates).user_id = u.user_id ∧
    (mergeUser u updates).username = u.username ∧
    stmtsOf (update_user tok username updates db).trace = [updateStmt updates] ∧
    ("email = ?" ∈ updateFieldNames updates ↔ updates.email.isSome = true) ∧
    ("full_name = ?" ∈ updateFieldNames updates ↔ updates.full_name.isSome = true) ∧
    ("role = ?" ∈ updateFieldNames updates ↔ updates.role.isSome = true) := by
  subst ht
  have hcond : (u.username == username) = true := by simp [hname]
  have hpos : (db.users.filter (fun r => r.username == username)).length ≠ 0 :=
    Nat.pos_iff_ne_zero.mp
      (List.length_pos_of_mem (List.mem_filter.mpr ⟨hu, hcond⟩))
  refine ⟨?_, ?_, ?_, ?_, ?_, rfl, rfl, ?_, ?_, ?_, ?_⟩
  · simp [update_user, require_admin, hadm, h₁, h₂, h₃, hne, hpos, boundary]
  · have hmem : mergeUser u updates ∈ applyRawUpdate db.users username updates := by
      have := List.mem_map_of_mem
        (fun r => if r.username == username then mergeUser r updates else r) hu
      rw [applyRawUpdate]
      simpa [hcond] using this
    simp [update_user, require_admin, hadm, h₁, h₂, h₃, hne, hpos, hmem]
  · intro h; simp [mergeUser, h]
  · intro h; simp [mergeUser, h]
  · intro h; simp [mergeUser, h]
  · simp [update_user, require_admin, hadm, h₁, h₂, h₃, hne, hpos, stmtsOf]
  · cases he : updates.email <;> simp [updateFieldNames, he]
  · cases hf : updates.full_name <;>
      cases he : updates.email <;> simp [updateFieldNames, he, hf]
  · cases hr : updates.role <;> cases hf : updates.full_name <;>
      cases he : updates.email <;> simp [updateFieldNames, he, hf, hr]

/-- Witness for C6: updating "alice" with only an email supplied. -/
theorem update_preserves_unsupplied_fields_witness :
    (dbRawSample.caps.hasUpdateUser = false ∧
     dbRawSample.caps.hasGetConnection = true ∧
     dbRawSample.connErrMsg = none ∧
     aliceRec ∈ dbRawSample.users ∧ aliceRec.username = "alice" ∧
     (updateFieldNames ⟨some "new@x.com", none, none⟩).isEmpty = false) ∧
    ((update_user adminTok "alice" ⟨some "new@x.com", none, none⟩ dbRawSample).result =
      .ok (.fromRequest "alice" ⟨some "new@x.com", none, none⟩) ∧
     mergeUser aliceRec ⟨some "new@x.com", none, none⟩ ∈
       (update_user adminTok "alice" ⟨some "new@x.com", none, none⟩ dbRawSample).db.users ∧
     ((⟨some "new@x.com", none, none⟩ : UserUpdate).email = none →
       (mergeUser aliceRec ⟨some "new@x.com", none, none⟩).email = aliceRec.email) ∧
     ((⟨some "new@x.com", none, none⟩ : UserUpdate).full_name = none →
       (mergeUser aliceRec ⟨some "new@x.com", none, none⟩).full_name = aliceRec.full_name) ∧
     ((⟨some "new@x.com", none, none⟩ : UserUpdate).role = none →
       (mergeUser aliceRec ⟨some "new@x.com", none, none⟩).role = aliceRec.role) ∧
     (mergeUser aliceRec ⟨some "new@x.com", none, none⟩).user_id = aliceRec.user_id ∧
     (mergeUser aliceRec ⟨some "new@x.com", none, none⟩).username = aliceRec.username ∧
     stmtsOf (update_user adminTok "alice" ⟨some "new@x.com", none, none⟩ dbRawSample).trace =
       [updateStmt ⟨some "new@x.com", none, none⟩] ∧
     ("email = ?" ∈ updateFieldNames ⟨some "new@x.com", none, none⟩ ↔
       (⟨some "new@x.com", none, none⟩ : UserUpdate).email.isSome = true) ∧
     ("full_name = ?" ∈ updateFieldNames ⟨some "new@x.com", none, none⟩ ↔
       (⟨some "new@x.com", none, none⟩ : UserUpdate).full_name.isSome = true) ∧
     ("role = ?" ∈ updateFieldNames ⟨some "new@x.com", none, none⟩ ↔
       (⟨some "new@x.com", none, none⟩ : UserUpdate).role.isSome = true)) :=
  ⟨by decide,
   update_preserves_unsupplied_fields adminTok ⟨Role.admin⟩ rfl rfl dbRawSample
     "alice" ⟨some "new@x.com", none, none⟩ rfl rfl rfl aliceRec (by decide) rfl rfl⟩

/-- On the raw profile the create handler executes exactly the constant
INSERT text; the request values appear only in the bound-parameter tuple. -/
theorem create_user_raw_trace (i : Identity) (hadm : i.role = Role.admin)
    (u : UserCreate) (db : DB)
    (hg : db.caps.hasGetUserByUsername = false) (hc : db.caps.hasCreateUser = false)
    (hconn : db.caps.hasGetConnection = true) :
    (create_user (some i) u db).trace =
      [.rawExec insertStmt [some u.username, some u.email, u.full_name, some u.role]] := by
  cases hm : db.connErrMsg with
  | none =>
    cases hdup : db.users.any (fun r => r.username == u.username) <;>
      simp [create_user, require_admin, hadm, hg, createDispatch, hc, hconn, hm, hdup]
  | some m =>
    simp [create_user, require_admin, hadm, hg, createDispatch, hc, hconn, hm]

/-- On the raw profile the delete handler executes exactly the constant
DELETE text; the username appears only as the bound parameter. -/
theorem delete_user_raw_trace (i : Identity) (hadm : i.role = Role.admin)
    (username : String) (db : DB)
    (hd : db.caps.hasDeleteUser = false) (hconn : db.caps.hasGetConnection = true) :
    (delete_user (some i) username db).trace = [.rawExec deleteStmt [some username]] := by
  cases hm : db.connErrMsg with
  | none =>
    by_cases hz : (db.users.filter (fun r => r.username == username)).length = 0 <;>
      simp [delete_user, require_admin, hadm, hd, hconn, hm, hz]
  | some m => simp [delete_user, require_admin, hadm, hd, hconn, hm]

/-- On the raw profile, with at least one supplied field, the update handler
executes exactly the statement built by `updateStmt`; the field values and
the username appear only in the bound-parameter tuple. -/
theorem update_user_raw_trace (i : Identity) (hadm : i.role = Role.admin)
    (username : String) (updates : UserUpdate) (db : DB)
    (hu : db.caps.hasUpdateUser = false) (hconn : db.caps.hasGetConnection = true)
    (hne : (updateFieldNames updates).isEmpty = false) :
    (update_user (some i) username updates db).trace =
      [.rawExec (updateStmt updates) (updateParams updates ++ [some username])] := by
  cases hm : db.connErrMsg with
  | none =>
    by_cases hz : (db.users.filter (fun r => r.username == username)).length = 0 <;>
      simp [update_user, require_admin, hadm, hu, hconn, hm, hne, hz]
  | some m => simp [update_user, require_admin, hadm, hu, hconn, hm, hne]

/-- On the raw profile the approver listing executes exactly the constant
SELECT text with an empty parameter tuple. -/
theorem list_approvers_raw_trace (i : Identity) (db : DB)
    (hla : db.caps.hasListApprovers = false) (hl : db.caps.hasListUsers = false)
    (hconn : db.caps.hasGetConnection = true) :
    (list_approvers (some i) db).trace = [.rawExec approverSelectStmt []] := by
  cases hm : db.connErrMsg <;>
    simp [list_approvers, verify_token, hla, hl, hconn, hm]

/-- The `update_fields` list depends only on WHICH fields are supplied,
never on their values. -/
theorem updateFieldNames_mask (u₁ u₂ : UserUpdate)
    (h₁ : u₁.email.isSome = u₂.email.isSome)
    (h₂ : u₁.full_name.isSome = u₂.full_name.isSome)
    (h₃ : u₁.role.isSome = u₂.role.isSome) :
    updateFieldNames u₁ = updateFieldNames u₂ := by
  simp [updateFieldNames, h₁, h₂, h₃]

/-- C8: on every raw-query fallback, user-supplied values reach the database
only as bound parameters: for two create, delete, approver-list, or update
requests differing only in field or username values (same supplied-field
set for update), the executed statement strings are identical — the INSERT,
DELETE and SELECT texts are the fixed constants, and the UPDATE text is a
function of the supplied-field set alone. -/
theorem raw_statements_value_independent
    (i : Identity) (hadm : i.role = Role.admin)
    (u₁ u₂ : UserCreate) (n₁ n₂ : String) (upd₁ upd₂ : UserUpdate) (db₁ db₂ : DB)
    (hg₁ : db₁.caps.hasGetUserByUsername = false) (hc₁ : db₁.caps.hasCreateUser = false)
    (hu₁ : db₁.caps.hasUpdateUser = false) (hd₁ : db₁.caps.hasDeleteUser = false)
    (hla₁ : db₁.caps.hasListApprovers = false) (hlu₁ : db₁.caps.hasListUsers = false)
    (hcn₁ : db₁.caps.hasGetConnection = true)
    (hg₂ : db₂.caps.hasGetUserByUsername = false) (hc₂ : db₂.caps.hasCreateUser = false)
    (hu₂ : db₂.caps.hasUpdateUser = false) (hd₂ : db₂.caps.hasDeleteUser = false)
    (hla₂ : db₂.caps.hasListApprovers = false) (hlu₂ : db₂.caps.hasListUsers = false)
    (hcn₂ : db₂.caps.hasGetConnection = true)
    (hm₁ : upd₁.email.isSome = upd₂.email.isSome)
    (hm₂ : upd₁.full_name.isSome = upd₂.full_name.isSome)
    (hm₃ : upd₁.role.isSome = upd₂.role.isSome)
    (hne : (updateFieldNames upd₁).isEmpty = false) :
    stmtsOf (create_user (some i) u₁ db₁).trace =
      stmtsOf (create_user (some i) u₂ db₂).trace ∧
    stmtsOf (create_user (some i) u₁ db₁).trace = [insertStmt] ∧
    stmtsOf (delete_user (some i) n₁ db₁).trace =
      stmtsOf (delete_user (some i) n₂ db₂).trace ∧
    stmtsOf (delete_user (some i) n₁ db₁).trace = [deleteStmt] ∧
    stmtsOf (list_approvers (some i) db₁).trace =
      stmtsOf (list_approvers (some i) db₂).trace ∧
    stmtsOf (list_approvers (some i) db₁).trace = [approverSelectStmt] ∧
    stmtsOf (update_user (some i) n₁ upd₁ db₁).trace =
      stmtsOf (update_user (some i) n₂ upd₂ db₂).trace ∧
    stmtsOf (update_user (some i) n₁ upd₁ db₁).trace = [updateStmt upd₁] ∧
    updateStmt upd₁ = updateStmt upd₂ := by
  have hmask := updateFieldNames_mask upd₁ upd₂ hm₁ hm₂ hm₃
  have hstmt : updateStmt upd₁ = updateStmt upd₂ := by
    simp [updateStmt, hmask]
  have hne₂ : (updateFieldNames upd₂).isEmpty = false := hmask ▸ hne
  refine ⟨?_, ?_, ?_, ?_, ?_, ?_, ?_, ?_, hstmt⟩
  · rw [create_user_raw_trace i hadm u₁ db₁ hg₁ hc₁ hcn₁,
      create_user_raw_trace i hadm u₂ db₂ hg₂ hc₂ hcn₂]
    simp [stmtsOf]
  · rw [create_user_raw_trace i hadm u₁ db₁ hg₁ hc₁ hcn₁]; simp [stmtsOf]
  · rw [delete_user_raw_trace i hadm n₁ db₁ hd₁ hcn₁,
      delete_user_raw_trace i hadm n₂ db₂ hd₂ hcn₂]
    simp [stmtsOf]
  · rw [delete_user_raw_trace i hadm n₁ db₁ hd₁ hcn₁]; simp [stmtsOf]
  · rw [list_approvers_raw_trace i db₁ hla₁ hlu₁ hcn₁,
      list_approvers_raw_trace i db₂ hla₂ hlu₂ hcn₂]
  · rw [list_approvers_raw_trace i db₁ hla₁ hlu₁ hcn₁]; simp [stmtsOf]
  · rw [update_user_raw_trace i hadm n₁ upd₁ db₁ hu₁ hcn₁ hne,
      update_user_raw_trace i hadm n₂ upd₂ db₂ hu₂ hcn₂ hne₂]
    simp [stmtsOf, hstmt]
  · rw [update_user_raw_trace i hadm n₁ upd₁ db₁ hu₁ hcn₁ hne]; simp [stmtsOf]

/-- Witness for C8: two stores and two requests differing only in values
(same supplied-field set: email and role), including a value containing a
quote-and-injection attempt that still leaves the statement text
unchanged. -/
theorem raw_statements_value_independent_witness :
    (dbRawSample.caps.hasGetUserByUsername = false ∧
     dbRawSample.caps.hasCreateUser = false ∧
     dbRawSample.caps.hasUpdateUser = false ∧
     dbRawSample.caps.hasDeleteUser = false ∧
     dbRawSample.caps.hasListApprovers = false ∧
     dbRawSample.caps.hasListUsers = false ∧
     dbRawSample.caps.hasGetConnection = true ∧
     ((⟨some "e1", none, some "admin"⟩ : UserUpdate).email.isSome =
       (⟨some "x; DROP TABLE users", none, some "user"⟩ : UserUpdate).email.isSome) ∧
     ((⟨some "e1", none, some "admin"⟩ : UserUpdate).full_name.isSome =
       (⟨some "x; DROP TABLE users", none, some "user"⟩ : UserUpdate).full_name.isSome) ∧
     ((⟨some "e1", none, some "admin"⟩ : UserUpdate).role.isSome =
       (⟨some "x; DROP TABLE users", none, some "user"⟩ : UserUpdate).role.isSome) ∧
     (updateFieldNames ⟨some "e1", none, some "admin"⟩).isEmpty = false) ∧
    (stmtsOf (create_user adminTok ⟨"zed", "z@x.com", none, "user"⟩ dbRawSample).trace =
      stmtsOf (create_user adminTok ⟨"ned", "n@y.org", some "Ned", "admin"⟩
        ⟨rawCaps, [], 1, none⟩).trace ∧
     stmtsOf (create_user adminTok ⟨"zed", "z@x.com", none, "user"⟩ dbRawSample).trace =
       [insertStmt] ∧
     stmtsOf (delete_user adminTok "alice" dbRawSample).trace =
       stmtsOf (delete_user adminTok "bob" ⟨rawCaps, [], 1, none⟩).trace ∧
     stmtsOf (delete_user adminTok "alice" dbRawSample).trace = [deleteStmt] ∧
     stmtsOf (list_approvers adminTok dbRawSample).trace =
       stmtsOf (list_approvers adminTok ⟨rawCaps, [], 1, none⟩).trace ∧
     stmtsOf (list_approvers adminTok dbRawSample).trace = [approverSelectStmt] ∧
     stmtsOf (update_user adminTok "alice" ⟨some "e1", none, some "admin"⟩ dbRawSample).trace =
       stmtsOf (update_user adminTok "bob"
         ⟨some "x; DROP TABLE users", none, some "user"⟩ ⟨rawCaps, [], 1, none⟩).trace ∧
     stmtsOf (update_user adminTok "alice" ⟨some "e1", none, some "admin"⟩ dbRawSample).trace =
       [updateStmt ⟨some "e1", none, some "admin"⟩] ∧
     updateStmt ⟨some "e1", none, some "admin"⟩ =
       updateStmt ⟨some "x; DROP TABLE users", none, some "user"⟩) :=
  ⟨by decide,
   raw_statements_value_independent ⟨Role.admin⟩ rfl
     ⟨"zed", "z@x.com", none, "user"⟩ ⟨"ned", "n@y.org", some "Ned", "admin"⟩
     "alice" "bob" ⟨some "e1", none, some "admin"⟩
     ⟨some "x; DROP TABLE users", none, some "user"⟩
     dbRawSample ⟨rawCaps, [], 1, none⟩
     rfl rfl rfl rfl rfl rfl rfl rfl rfl rfl rfl rfl rfl rfl rfl rfl rfl rfl⟩

/-- C9 counterexample: an unexpected store error (raw connection raising
"boom") is surfaced as HTTP 500 whose caller-visible detail IS the internal
exception message — `detail=str(e)` leaks it, contradicting "the payload
does not contain internal details such as the exception message". -/
theorem internal_error_detail_leak_counterexample :
    (delete_user adminTok "alice" ⟨rawCaps, [aliceRec], 2, some "boom"⟩).result =
      .error (.httpExc 500 "boom") := rfl

/-- C9 amended: the known kinds raised as `HTTPException` (Permission,
Conflict, NotFound, Unsupported) pass through the operation boundary
unmodified, and any other exception is caught there and surfaced as HTTP
500 — but its caller-visible detail is `str(e)`, the exception's own
message, so internal details ARE included in the payload rather than
hidden. -/
theorem errors_normalized_at_boundary
    (i : Identity) (hadm : i.role = Role.admin) (m : String)
    (db db₀ : DB) (username : String)
    (h₁ : db.caps.hasDeleteUser = false) (h₂ : db.caps.hasGetConnection = true)
    (h₃ : db.connErrMsg = some m)
    (h₄ : db₀.caps.hasDeleteUser = false) (h₅ : db₀.caps.hasGetConnection = false) :
    (delete_user (some i) username db).result = .error (.httpExc 500 m) ∧
    (delete_user (some i) username db₀).result =
      .error (.httpExc 501 "User deletion not supported") ∧
    (∀ (s : Nat) (d : String),
      boundary (α := String) (.error (.httpExc s d)) = .error (.httpExc s d)) ∧
    (∀ msg : String,
      boundary (α := String) (.error (.other msg)) = .error (.httpExc 500 msg)) := by
  refine ⟨?_, ?_, fun s d => rfl, fun msg => rfl⟩
  · simp [delete_user, require_admin, hadm, h₁, h₂, h₃, boundary]
  · simp [delete_user, require_admin, hadm, h₄, h₅, boundary]

/-- Witness for amended C9 at the concrete failing connection "boom" and a
capability-less store. -/
theorem errors_normalized_at_boundary_witness :
    ((⟨rawCaps, [aliceRec], 2, some "boom"⟩ : DB).caps.hasDeleteUser = false ∧
     (⟨rawCaps, [aliceRec], 2, some "boom"⟩ : DB).caps.hasGetConnection = true ∧
     (⟨rawCaps, [aliceRec], 2, some "boom"⟩ : DB).connErrMsg = some "boom" ∧
     (⟨noCaps, [aliceRec], 2, none⟩ : DB).caps.hasDeleteUser = false ∧
     (⟨noCaps, [aliceRec], 2, none⟩ : DB).caps.hasGetConnection = false) ∧
    ((delete_user adminTok "alice" ⟨rawCaps, [aliceRec], 2, some "boom"⟩).result =
      .error (.httpExc 500 "boom") ∧
     (delete_user adminTok "alice" ⟨noCaps, [aliceRec], 2, none⟩).result =
      .error (.httpExc 501 "User deletion not supported") ∧
     (∀ (s : Nat) (d : String),
       boundary (α := String) (.error (.httpExc s d)) = .error (.httpExc s d)) ∧
     (∀ msg : String,
       boundary (α := String) (.error (.other msg)) = .error (.httpExc 500 msg))) :=
  ⟨by decide,
   errors_normalized_at_boundary ⟨Role.admin⟩ rfl "boom"
     ⟨rawCaps, [aliceRec], 2, some "boom"⟩ ⟨noCaps, [aliceRec], 2, none⟩ "alice"
     rfl rfl rfl rfl rfl⟩

end Users
